import Mathlib

/-!
Verification of the DateSlider interaction engine (aodn/imos-live-date-slider).

Instants are UTC milliseconds since epoch, embedded as `Int`.  Axis
percentages are exact rationals (`ℚ`).  The repository ships the type
declarations (`type.ts`), the handle renderer (`SliderHandle.tsx`) and the
time display (`TimeDisplay.tsx`); the engine internals (`DateSlider.tsx`,
`utils.ts`, the hooks) are not part of the source tree, so those parts are
modelled from the specification, as noted on each definition.
-/

namespace DateSlider

/-- `DateGranularity` from `type.ts` / `utils`: the selection snapping
resolution, one of day, hour, minute. -/
inductive DateGranularity where
  | day
  | hour
  | minute
deriving DecidableEq, Repr

/-- Milliseconds spanned by one unit of the granularity. -/
def DateGranularity.ms : DateGranularity → Int
  | .day => 86400000
  | .hour => 3600000
  | .minute => 60000

/-- `ViewMode` from `type.ts` line 5: the selection topology. -/
inductive ViewMode where
  | range
  | point
  | combined
deriving DecidableEq, Repr

/-- `DragHandle` from `type.ts` line 7 (`'start' | 'end' | 'point'`); the
source's `end` is a Lean keyword, so the constructor is named `endH`.  The
source's `null` member is the absence of an active handle and is not needed
for the claims, so it is omitted. -/
inductive DragHandle where
  | start
  | endH
  | point
deriving DecidableEq, Repr

/-- TimeAxis from spec section 3: UTC start/end instants plus the selection
granularity.  The source field `end` is a Lean keyword, so it is named
`stop` here. -/
structure TimeAxis where
  start : Int
  stop : Int
  gran : DateGranularity
deriving DecidableEq, Repr

/-- Clamp a rational into `[lo, hi]`. -/
def clampQ (lo hi x : ℚ) : ℚ := max lo (min hi x)

/-- Clamp an integer instant into `[lo, hi]`. -/
def clampI (lo hi x : Int) : Int := max lo (min hi x)

/-- Modelled from the spec (section 4.1, the missing `utils.ts`): round an
interpolated instant to the nearest multiple of the selection granularity,
half-up tie-break toward the later instant. -/
def snapToGranularity (x : ℚ) (g : DateGranularity) : Int :=
  ⌊x / (g.ms : ℚ) + 1 / 2⌋ * g.ms

/-- Modelled from the spec (section 4.1, the missing `utils.ts`):
`instantFromPercent(p, axis)` clamps `p` to `[0,100]`, linear-interpolates
`p/100` across `[axis.start, axis.end]`, then snaps to the selection
granularity. -/
def instantFromPercent (p : ℚ) (ax : TimeAxis) : Int :=
  snapToGranularity
    ((ax.start : ℚ) + clampQ 0 100 p / 100 * ((ax.stop : ℚ) - (ax.start : ℚ)))
    ax.gran

/-- Modelled from the spec (section 4.1, the missing `utils.ts`):
`percentFromInstant(i, axis)` clamps `i` to `[axis.start, axis.end]` first,
then applies the inverse linear map. -/
def percentFromInstant (i : Int) (ax : TimeAxis) : ℚ :=
  ((clampI ax.start ax.stop i : ℚ) - (ax.start : ℚ)) /
    ((ax.stop : ℚ) - (ax.start : ℚ)) * 100

/-- `SelectionResult` from `type.ts` lines 12-30: the emitted value, shaped
by the topology (`PointSelection`, `RangeSelection`, or their intersection
`CombinedSelection`). -/
inductive SelectionResult where
  | pointSel (point : Int)
  | rangeSel (rstart rend : Int)
  | combinedSel (rstart rend point : Int)
deriving DecidableEq, Repr

/-- Which handles exist in a topology: the table of spec section 3, realised
in `SliderHandle.tsx` by `RenderSliderHandle`. -/
def handleExists : ViewMode → DragHandle → Bool
  | .range, .start => true
  | .range, .endH => true
  | .range, .point => false
  | .point, .point => true
  | .point, .start => false
  | .point, .endH => false
  | .combined, _ => true

/-- Configuration of the selection state machine: topology, axis, and the
minimum gap between the range endpoints expressed as an axis percentage. -/
structure MachineConfig where
  viewMode : ViewMode
  axis : TimeAxis
  minGapPercent : ℚ

/-- Modelled from the spec (section 4.3): `minGapPercent` is
`minGapScaleUnits` (the `SliderProps.minGapScaleUnits` prop, `type.ts`
line 152) times the percent-width of one current display-unit tick. -/
def minGapPercentOf (minGapScaleUnits tickWidthPercent : ℚ) : ℚ :=
  minGapScaleUnits * tickWidthPercent

/-- The logical selection: one position per possible handle (`HandleState`
positions of spec section 3; fields not in the active topology are inert). -/
structure MachineState where
  startPos : ℚ
  endPos : ℚ
  pointPos : ℚ
deriving DecidableEq, Repr

/-- Modelled from the spec (section 4.3, the missing `DateSlider.tsx`):
`proposeMove` first converts the candidate percent to an instant via the
PositionMapper and re-derives a clamped percent. -/
def reclampPercent (cfg : MachineConfig) (p : ℚ) : ℚ :=
  percentFromInstant (instantFromPercent p cfg.axis) cfg.axis

/-- Modelled from the spec (section 4.3, the missing `DateSlider.tsx`):
`proposeMove(handle, candidatePercent)`, the sole mutating entry point.
A handle absent from the topology does not move.  In Range/Combined the
moved endpoint is clamped so `Start.position <= End.position -
minGapPercent`; the Point handle moves freely. -/
def proposeMove (cfg : MachineConfig) (st : MachineState) (h : DragHandle)
    (cand : ℚ) : MachineState :=
  if handleExists cfg.viewMode h then
    let p := reclampPercent cfg cand
    match h with
    | .start => { st with startPos := min p (st.endPos - cfg.minGapPercent) }
    | .endH => { st with endPos := max p (st.startPos + cfg.minGapPercent) }
    | .point => { st with pointPos := p }
  else st

/-- Modelled from the spec (section 3, the missing `DateSlider.tsx`): the
SelectionResult derived from the current handle positions, shaped by the
topology. -/
def selectionOf (cfg : MachineConfig) (st : MachineState) : SelectionResult :=
  match cfg.viewMode with
  | .point => .pointSel (instantFromPercent st.pointPos cfg.axis)
  | .range =>
      .rangeSel (instantFromPercent st.startPos cfg.axis)
        (instantFromPercent st.endPos cfg.axis)
  | .combined =>
      .combinedSel (instantFromPercent st.startPos cfg.axis)
        (instantFromPercent st.endPos cfg.axis)
        (instantFromPercent st.pointPos cfg.axis)

/-- Run a sequence of `proposeMove` commands. -/
def runMoves (cfg : MachineConfig) (st : MachineState)
    (moves : List (DragHandle × ℚ)) : MachineState :=
  moves.foldl (fun s m => proposeMove cfg s m.1 m.2) st

/-- The Range ordering/gap invariant of spec section 8. -/
def gapInvariant (cfg : MachineConfig) (st : MachineState) : Prop :=
  st.startPos ≤ st.endPos - cfg.minGapPercent

/-- A command consumed synchronously by the state machine (spec section 9
design note: explicit command objects `proposeMove` / `commit`). -/
inductive SliderOp where
  | propose (h : DragHandle) (cand : ℚ)
  | commit
deriving DecidableEq, Repr

/-- Modelled from the spec (section 4.3): one command step; `commit` leaves
the tuple unchanged and synchronously emits exactly one SelectionResult,
`proposeMove` emits nothing. -/
def stepOp (cfg : MachineConfig) (st : MachineState) :
    SliderOp → MachineState × List SelectionResult
  | .propose h cand => (proposeMove cfg st h cand, [])
  | .commit => (st, [selectionOf cfg st])

/-- Run a command sequence, accumulating the outward emissions in order. -/
def runOps (cfg : MachineConfig) (st : MachineState) :
    List SliderOp → MachineState × List SelectionResult
  | [] => (st, [])
  | op :: rest =>
      let r := stepOp cfg st op
      let r2 := runOps cfg r.1 rest
      (r2.1, r.2 ++ r2.2)

/-- Number of `commit` commands in a sequence. -/
def countCommits : List SliderOp → Nat
  | [] => 0
  | .commit :: rest => countCommits rest + 1
  | .propose _ _ :: rest => countCommits rest

/-- Modelled from the spec (section 4.7, the missing `DateSlider.tsx`):
`setDateTime(instant, target)` of `SliderExposedMethod` (`type.ts` lines
46-49).  The instant is clamped into the axis, the target is resolved
against the topology (silent no-op when absent), then `proposeMove` +
`commit` run for that handle; the pair returned is the new state together
with the list of emissions. -/
def setDateTime (cfg : MachineConfig) (st : MachineState) (date : Int)
    (target : DragHandle) : MachineState × List SelectionResult :=
  if handleExists cfg.viewMode target then
    let clamped := clampI cfg.axis.start cfg.axis.stop date
    let st2 := proposeMove cfg st target (percentFromInstant clamped cfg.axis)
    (st2, [selectionOf cfg st2])
  else (st, [])

/-- The initial-value props of `SliderProps` (`type.ts` lines 121-128) that
determine the initial handle positions: topology, axis bounds, granularity,
`initialRange` and `initialPoint`. -/
structure SliderInitProps where
  viewMode : ViewMode
  startDate : Int
  endDate : Int
  granularity : DateGranularity
  initialRange : Option (Int × Int)
  initialPoint : Option Int

/-- The axis described by the props. -/
def SliderInitProps.axis (p : SliderInitProps) : TimeAxis :=
  ⟨p.startDate, p.endDate, p.granularity⟩

/-- Modelled from the spec (sections 4.3 and 6, the missing
`usePositionState` hook): the Point handle's initial position comes from
`initialPoint` when supplied, else the topology-specific default midpoint. -/
def resolveInitialPoint (p : SliderInitProps) : ℚ :=
  match p.initialPoint with
  | some i => percentFromInstant i p.axis
  | none => 50

/-- Modelled from the spec (sections 4.3 and 6, the missing
`usePositionState` hook): the Start/End initial positions come from
`initialRange` when supplied; the spec fixes no default for the range, the
full axis is used here. -/
def resolveInitialRange (p : SliderInitProps) : ℚ × ℚ :=
  match p.initialRange with
  | some r => (percentFromInstant r.1 p.axis, percentFromInstant r.2 p.axis)
  | none => (0, 100)

/-- Modelled from the spec (section 4.3): the initial machine state derived
from the caller-supplied initial values; out-of-topology initial values are
ignored, not rejected (spec section 6). -/
def initState (p : SliderInitProps) : MachineState :=
  ⟨(resolveInitialRange p).1, (resolveInitialRange p).2, resolveInitialPoint p⟩

/-- The handles mounted by `RenderSliderHandle` (`SliderHandle.tsx` lines
111-184): Start and End inside the `viewMode === 'range' || viewMode ===
'combined'` guard (line 113), Point inside the `viewMode === 'point' ||
viewMode === 'combined'` guard (line 158). -/
def mountedHandles (vm : ViewMode) : List DragHandle :=
  (if vm = .range ∨ vm = .combined then [.start, .endH] else []) ++
    (if vm = .point ∨ vm = .combined then [.point] else [])

/-- Modelled from the spec (section 4.1, the missing `utils.ts`):
`getDateFromPercent(position, startDate, endDate)` as called from
`TimeDisplay.tsx` and `SliderHandle.tsx` — three arguments, no granularity
parameter — so plain clamped linear interpolation, floored to a whole
millisecond. -/
def getDateFromPercent (p : ℚ) (startDate endDate : Int) : Int :=
  ⌊(startDate : ℚ) + clampQ 0 100 p / 100 * ((endDate : ℚ) - (startDate : ℚ))⌋

/-- Modelled from the spec (section 4.4, the missing `utils.ts`):
`addTime(date, amount, unit)` shifts the date by `amount` units of the
granularity (granularity units are fixed millisecond spans). -/
def addTime (date amount : Int) (unit : DateGranularity) : Int :=
  date + amount * unit.ms

/-- The two arrow directions of `TimeDisplay.tsx`. -/
inductive MoveDirection where
  | forward
  | backward
deriving DecidableEq, Repr

/-- `handleDateUpdate` from `TimeDisplay.tsx` lines 32-39: compute the date
at the current point position, shift it by plus or minus one granularity
unit, and return the argument pair passed to `setDateTime` — the date and
the hard-coded `'point'` target.  The active view mode is not an input. -/
def handleDateUpdate (dir : MoveDirection) (position : ℚ)
    (startDate endDate : Int) (granularity : DateGranularity) :
    Int × DragHandle :=
  let currentDate := getDateFromPercent position startDate endDate
  let amount : Int := match dir with | .forward => 1 | .backward => -1
  let newDate := addTime currentDate amount granularity
  (newDate, .point)

theorem DateGranularity.ms_pos (g : DateGranularity) : 0 < g.ms := by
  cases g <;> decide

/-- Snapping fixes every instant already aligned to the granularity. -/
theorem snapToGranularity_dvd (g : DateGranularity) {i : Int} (h : g.ms ∣ i) :
    snapToGranularity (i : ℚ) g = i := by
  obtain ⟨k, hk⟩ := h
  have hg0 : ((g.ms : Int) : ℚ) ≠ 0 := by
    exact_mod_cast ne_of_gt g.ms_pos
  have hfl : ⌊(k : ℚ) + 1 / 2⌋ = k := by
    rw [Int.floor_eq_iff]
    constructor
    · linarith
    · linarith
  subst hk
  unfold snapToGranularity
  rw [show ((g.ms * k : Int) : ℚ) = ((g.ms : Int) : ℚ) * (k : ℚ) by push_cast; ring,
    mul_div_cancel_left₀ _ hg0, hfl, mul_comm]

/-- Snapping is monotone. -/
theorem snapToGranularity_mono (g : DateGranularity) {x y : ℚ} (h : x ≤ y) :
    snapToGranularity x g ≤ snapToGranularity y g := by
  unfold snapToGranularity
  have hg : (0 : ℚ) < ((g.ms : Int) : ℚ) := by exact_mod_cast g.ms_pos
  have h2 : x / ((g.ms : Int) : ℚ) + 1 / 2 ≤ y / ((g.ms : Int) : ℚ) + 1 / 2 := by
    gcongr
  exact mul_le_mul_of_nonneg_right (Int.floor_mono h2) (le_of_lt g.ms_pos)

/-- C2: round-trip law of the PositionMapper — for every valid TimeAxis and
every instant aligned to the selection granularity and within range,
`instantFromPercent (percentFromInstant i axis) axis = i`. -/
theorem claim_C2_roundtrip (ax : TimeAxis) (i : Int) (hv : ax.start < ax.stop)
    (hal : ax.gran.ms ∣ i) (h1 : ax.start ≤ i) (h2 : i ≤ ax.stop) :
    instantFromPercent (percentFromInstant i ax) ax = i := by
  have hvq : (ax.start : ℚ) < (ax.stop : ℚ) := by exact_mod_cast hv
  have hne : ((ax.stop : ℚ) - (ax.start : ℚ)) ≠ 0 := by linarith
  have hpos : (0 : ℚ) < (ax.stop : ℚ) - (ax.start : ℚ) := by linarith
  have h1q : (ax.start : ℚ) ≤ (i : ℚ) := by exact_mod_cast h1
  have h2q : (i : ℚ) ≤ (ax.stop : ℚ) := by exact_mod_cast h2
  have hci : clampI ax.start ax.stop i = i := by
    unfold clampI
    rw [min_eq_right h2, max_eq_right h1]
  have hp : percentFromInstant i ax =
      ((i : ℚ) - (ax.start : ℚ)) / ((ax.stop : ℚ) - (ax.start : ℚ)) * 100 := by
    unfold percentFromInstant
    rw [hci]
  have hp0 : 0 ≤ percentFromInstant i ax := by
    rw [hp]
    have := div_nonneg (by linarith : (0 : ℚ) ≤ (i : ℚ) - (ax.start : ℚ))
      (le_of_lt hpos)
    linarith
  have hp100 : percentFromInstant i ax ≤ 100 := by
    rw [hp]
    have hle : ((i : ℚ) - (ax.start : ℚ)) / ((ax.stop : ℚ) - (ax.start : ℚ)) ≤ 1 := by
      rw [div_le_one hpos]
      linarith
    linarith
  have hclampQ : clampQ 0 100 (percentFromInstant i ax) = percentFromInstant i ax := by
    unfold clampQ
    rw [min_eq_right hp100, max_eq_right hp0]
  unfold instantFromPercent
  rw [hclampQ, hp]
  have hraw : (ax.start : ℚ) +
      ((i : ℚ) - (ax.start : ℚ)) / ((ax.stop : ℚ) - (ax.start : ℚ)) * 100 / 100 *
        ((ax.stop : ℚ) - (ax.start : ℚ)) = (i : ℚ) := by
    field_simp
    ring
  rw [hraw]
  exact snapToGranularity_dvd ax.gran hal

/-- C2 witness (Scenario A): axis [2024-01-01, 2024-12-31] with day
granularity round-trips 2024-06-15 exactly. -/
theorem claim_C2_witness :
    (1704067200000 : Int) < 1735603200000 ∧
    DateGranularity.day.ms ∣ (1718409600000 : Int) ∧
    (1704067200000 : Int) ≤ 1718409600000 ∧
    (1718409600000 : Int) ≤ 1735603200000 ∧
    instantFromPercent
        (percentFromInstant 1718409600000 ⟨1704067200000, 1735603200000, .day⟩)
        ⟨1704067200000, 1735603200000, .day⟩ = 1718409600000 :=
  ⟨by decide, ⟨19889, by decide⟩, by decide, by decide,
    claim_C2_roundtrip ⟨1704067200000, 1735603200000, .day⟩ 1718409600000
      (by decide) ⟨19889, by decide⟩ (by decide) (by decide)⟩

/-- C3 counterexample: the claim fails as stated — on the valid axis
[0 ms, 30000 ms] with minute granularity, `instantFromPercent 100` rounds
up to 60000 ms, outside [axis.start, axis.end]. -/
theorem claim_C3_counterexample :
    (0 : Int) < 30000 ∧
    instantFromPercent 100 ⟨0, 30000, .minute⟩ = 60000 ∧
    ¬ instantFromPercent 100 ⟨0, 30000, .minute⟩ ≤ (30000 : Int) := by
  refine ⟨by decide, ?_, ?_⟩ <;>
    norm_num [instantFromPercent, snapToGranularity, clampQ, DateGranularity.ms]

/-- C3 (amended): for every valid TimeAxis whose start and end are aligned
to the selection granularity, and every rational percentage `p`,
`instantFromPercent p axis` lies within [axis.start, axis.end]. -/
theorem claim_C3_amended (ax : TimeAxis) (p : ℚ) (hv : ax.start < ax.stop)
    (ha : ax.gran.ms ∣ ax.start) (hb : ax.gran.ms ∣ ax.stop) :
    ax.start ≤ instantFromPercent p ax ∧ instantFromPercent p ax ≤ ax.stop := by
  have hvq : (ax.start : ℚ) < (ax.stop : ℚ) := by exact_mod_cast hv
  have hpos : (0 : ℚ) < (ax.stop : ℚ) - (ax.start : ℚ) := by linarith
  have hq0 : 0 ≤ clampQ 0 100 p := le_max_left 0 _
  have hq100 : clampQ 0 100 p ≤ 100 := max_le (by norm_num) (min_le_left 100 p)
  unfold instantFromPercent
  have hr1 : (ax.start : ℚ) ≤
      (ax.start : ℚ) + clampQ 0 100 p / 100 * ((ax.stop : ℚ) - (ax.start : ℚ)) := by
    have := mul_nonneg (div_nonneg hq0 (by norm_num : (0 : ℚ) ≤ 100))
      (le_of_lt hpos)
    linarith
  have hr2 : (ax.start : ℚ) + clampQ 0 100 p / 100 * ((ax.stop : ℚ) - (ax.start : ℚ)) ≤
      (ax.stop : ℚ) := by
    have hdiv : clampQ 0 100 p / 100 ≤ 1 := by
      rw [div_le_one (by norm_num : (0 : ℚ) < 100)]
      exact hq100
    have := mul_le_mul_of_nonneg_right hdiv (le_of_lt hpos)
    rw [one_mul] at this
    linarith
  constructor
  · have := snapToGranularity_mono ax.gran hr1
    rwa [snapToGranularity_dvd ax.gran ha] at this
  · have := snapToGranularity_mono ax.gran hr2
    rwa [snapToGranularity_dvd ax.gran hb] at this

/-- C3 witness: the amended bound at a concrete aligned axis (100 days,
day granularity) and percentage 37. -/
theorem claim_C3_witness :
    (0 : Int) < 8640000000 ∧
    DateGranularity.day.ms ∣ (0 : Int) ∧
    DateGranularity.day.ms ∣ (8640000000 : Int) ∧
    ((0 : Int) ≤ instantFromPercent 37 ⟨0, 8640000000, .day⟩ ∧
      instantFromPercent 37 ⟨0, 8640000000, .day⟩ ≤ 8640000000) :=
  ⟨by decide, ⟨0, by decide⟩, ⟨100, by decide⟩,
    claim_C3_amended ⟨0, 8640000000, .day⟩ 37 (by decide) ⟨0, by decide⟩
      ⟨100, by decide⟩⟩

/-- One `proposeMove` step preserves the ordering/gap invariant. -/
theorem proposeMove_gapInvariant (cfg : MachineConfig) (st : MachineState)
    (h : DragHandle) (cand : ℚ) (h0 : gapInvariant cfg st) :
    gapInvariant cfg (proposeMove cfg st h cand) := by
  unfold proposeMove
  by_cases hex : handleExists cfg.viewMode h = true
  · rw [if_pos hex]
    cases h with
    | start => exact min_le_right _ _
    | endH =>
        have hle := le_max_right (reclampPercent cfg cand)
          (st.startPos + cfg.minGapPercent)
        unfold gapInvariant at h0 ⊢
        simp only
        linarith
    | point => exact h0
  · rw [if_neg hex]
    exact h0

/-- C1: in Range and Combined topologies, after every sequence of
`proposeMove` calls on any handles with any candidate percentages, the
handle states satisfy `Start.position <= End.position - minGapPercent`,
provided the initial state satisfies it. -/
theorem claim_C1_gap_invariant (cfg : MachineConfig) (st : MachineState)
    (moves : List (DragHandle × ℚ))
    (_hm : cfg.viewMode = .range ∨ cfg.viewMode = .combined)
    (h0 : gapInvariant cfg st) :
    gapInvariant cfg (runMoves cfg st moves) := by
  induction moves generalizing st with
  | nil => exact h0
  | cons m rest ih =>
      rw [runMoves, List.foldl_cons]
      exact ih _ (proposeMove_gapInvariant cfg st m.1 m.2 h0)

/-- C1 witness: a Range machine over one day with a 10-percent gap, after a
Start move to 99 percent, still satisfies the gap invariant. -/
theorem claim_C1_witness :
    (ViewMode.range = ViewMode.range ∨ ViewMode.range = ViewMode.combined) ∧
    gapInvariant ⟨.range, ⟨0, 86400000, .day⟩, 10⟩ ⟨0, 100, 0⟩ ∧
    gapInvariant ⟨.range, ⟨0, 86400000, .day⟩, 10⟩
      (runMoves ⟨.range, ⟨0, 86400000, .day⟩, 10⟩ ⟨0, 100, 0⟩
        [(DragHandle.start, 99)]) :=
  ⟨Or.inl rfl, by norm_num [gapInvariant],
    claim_C1_gap_invariant ⟨.range, ⟨0, 86400000, .day⟩, 10⟩ ⟨0, 100, 0⟩
      [(DragHandle.start, 99)] (Or.inl rfl) (by norm_num [gapInvariant])⟩

/-- C4: a `proposeMove` whose re-derived candidate percent would invert the
Start/End ordering or violate the minimum gap (any nonnegative gap, zero
included) places the moved handle exactly at the clamp boundary —
`End.position - minGapPercent` when Start is dragged toward End,
`Start.position + minGapPercent` when End is dragged toward Start —
leaving the other handle untouched and never crossing past it; the move is
not rejected. -/
theorem claim_C4_clamp_boundary (cfg : MachineConfig) (st : MachineState)
    (cand : ℚ) (hm : cfg.viewMode = .range ∨ cfg.viewMode = .combined)
    (hgap : 0 ≤ cfg.minGapPercent) :
    (st.endPos - cfg.minGapPercent ≤ reclampPercent cfg cand →
      (proposeMove cfg st DragHandle.start cand).startPos =
          st.endPos - cfg.minGapPercent ∧
        (proposeMove cfg st DragHandle.start cand).endPos = st.endPos ∧
        (proposeMove cfg st DragHandle.start cand).startPos ≤ st.endPos) ∧
    (reclampPercent cfg cand ≤ st.startPos + cfg.minGapPercent →
      (proposeMove cfg st DragHandle.endH cand).endPos =
          st.startPos + cfg.minGapPercent ∧
        (proposeMove cfg st DragHandle.endH cand).startPos = st.startPos ∧
        st.startPos ≤ (proposeMove cfg st DragHandle.endH cand).endPos) := by
  have hexS : handleExists cfg.viewMode DragHandle.start = true := by
    rcases hm with h | h <;> rw [h] <;> rfl
  have hexE : handleExists cfg.viewMode DragHandle.endH = true := by
    rcases hm with h | h <;> rw [h] <;> rfl
  constructor
  · intro hover
    unfold proposeMove
    rw [if_pos hexS]
    refine ⟨min_eq_right hover, rfl, ?_⟩
    have hle := min_le_right (reclampPercent cfg cand)
      (st.endPos - cfg.minGapPercent)
    show min (reclampPercent cfg cand) (st.endPos - cfg.minGapPercent) ≤
      st.endPos
    linarith
  · intro hunder
    unfold proposeMove
    rw [if_pos hexE]
    refine ⟨max_eq_right hunder, rfl, ?_⟩
    have hle := le_max_right (reclampPercent cfg cand)
      (st.startPos + cfg.minGapPercent)
    show st.startPos ≤ max (reclampPercent cfg cand)
      (st.startPos + cfg.minGapPercent)
    linarith

/-- C4 witness (Scenario B flavour): gap of 3 ticks of width 10 percent.
With End at 80, dragging Start to 75 stops it exactly at 50 = 80 − 3·10;
with Start at 20, dragging End to 25 stops it exactly at 50 = 20 + 3·10. -/
theorem claim_C4_witness :
    (0 : ℚ) ≤ minGapPercentOf 3 10 ∧
    ((80 : ℚ) - minGapPercentOf 3 10 ≤
        reclampPercent ⟨.range, ⟨0, 8640000000, .day⟩, minGapPercentOf 3 10⟩ 75 ∧
      (proposeMove ⟨.range, ⟨0, 8640000000, .day⟩, minGapPercentOf 3 10⟩
          ⟨0, 80, 0⟩ DragHandle.start 75).startPos =
        (80 : ℚ) - minGapPercentOf 3 10 ∧
      (proposeMove ⟨.range, ⟨0, 8640000000, .day⟩, minGapPercentOf 3 10⟩
          ⟨0, 80, 0⟩ DragHandle.start 75).endPos = 80 ∧
      (proposeMove ⟨.range, ⟨0, 8640000000, .day⟩, minGapPercentOf 3 10⟩
          ⟨0, 80, 0⟩ DragHandle.start 75).startPos ≤ 80) ∧
    (reclampPercent ⟨.range, ⟨0, 8640000000, .day⟩, minGapPercentOf 3 10⟩ 25 ≤
        (20 : ℚ) + minGapPercentOf 3 10 ∧
      (proposeMove ⟨.range, ⟨0, 8640000000, .day⟩, minGapPercentOf 3 10⟩
          ⟨20, 100, 0⟩ DragHandle.endH 25).endPos =
        (20 : ℚ) + minGapPercentOf 3 10 ∧
      (proposeMove ⟨.range, ⟨0, 8640000000, .day⟩, minGapPercentOf 3 10⟩
          ⟨20, 100, 0⟩ DragHandle.endH 25).startPos = 20 ∧
      (20 : ℚ) ≤ (proposeMove ⟨.range, ⟨0, 8640000000, .day⟩,
          minGapPercentOf 3 10⟩ ⟨20, 100, 0⟩ DragHandle.endH 25).endPos) :=
  ⟨by norm_num [minGapPercentOf],
    ⟨by norm_num [minGapPercentOf, reclampPercent, percentFromInstant,
        instantFromPercent, snapToGranularity, clampQ, clampI,
        DateGranularity.ms],
      (claim_C4_clamp_boundary
          ⟨.range, ⟨0, 8640000000, .day⟩, minGapPercentOf 3 10⟩ ⟨0, 80, 0⟩ 75
          (Or.inl rfl) (by norm_num [minGapPercentOf])).1
        (by norm_num [minGapPercentOf, reclampPercent, percentFromInstant,
          instantFromPercent, snapToGranularity, clampQ, clampI,
          DateGranularity.ms])⟩,
    ⟨by norm_num [minGapPercentOf, reclampPercent, percentFromInstant,
        instantFromPercent, snapToGranularity, clampQ, clampI,
        DateGranularity.ms],
      (claim_C4_clamp_boundary
          ⟨.range, ⟨0, 8640000000, .day⟩, minGapPercentOf 3 10⟩ ⟨20, 100, 0⟩ 25
          (Or.inl rfl) (by norm_num [minGapPercentOf])).2
        (by norm_num [minGapPercentOf, reclampPercent, percentFromInstant,
          instantFromPercent, snapToGranularity, clampQ, clampI,
          DateGranularity.ms])⟩⟩

/-- C5: an instant outside [axis.start, axis.end] given to a mapping
function is clamped to the nearest boundary (`percentFromInstant` yields
100 above the axis and 0 below it), and — Scenario C — on the Combined
axis [2024-01-01, 2024-01-31] with hour granularity, `setDateTime` of
2024-02-15 targeting Point sets the point handle to 100 percent and emits
the axis end 2024-01-31 as the point instant, from any state. -/
theorem claim_C5_out_of_range_clamped :
    (∀ (ax : TimeAxis) (i : Int), ax.start < ax.stop → ax.stop ≤ i →
      percentFromInstant i ax = 100) ∧
    (∀ (ax : TimeAxis) (i : Int), ax.start < ax.stop → i ≤ ax.start →
      percentFromInstant i ax = 0) ∧
    (∀ st : MachineState,
      setDateTime ⟨.combined, ⟨1704067200000, 1706659200000, .hour⟩, 0⟩ st
          1707955200000 DragHandle.point =
        ({ st with pointPos := 100 },
          [SelectionResult.combinedSel
            (instantFromPercent st.startPos ⟨1704067200000, 1706659200000, .hour⟩)
            (instantFromPercent st.endPos ⟨1704067200000, 1706659200000, .hour⟩)
            1706659200000])) := by
  refine ⟨?_, ?_, ?_⟩
  · intro ax i hv h
    have hvq : (ax.start : ℚ) < (ax.stop : ℚ) := by exact_mod_cast hv
    have hne : ((ax.stop : ℚ) - (ax.start : ℚ)) ≠ 0 := by linarith
    have hci : clampI ax.start ax.stop i = ax.stop := by
      unfold clampI
      rw [min_eq_left h, max_eq_right (le_of_lt hv)]
    unfold percentFromInstant
    rw [hci, div_self hne]
    norm_num
  · intro ax i hv h
    have hci : clampI ax.start ax.stop i = ax.start := by
      unfold clampI
      rw [min_eq_right (h.trans (le_of_lt hv)), max_eq_left h]
    unfold percentFromInstant
    rw [hci]
    simp
  · intro st
    have h1 : clampI 1704067200000 1706659200000 (1707955200000 : Int) =
        1706659200000 := by
      norm_num [clampI]
    have h2 : percentFromInstant 1706659200000
        ⟨1704067200000, 1706659200000, .hour⟩ = 100 := by
      norm_num [percentFromInstant, clampI]
    have h3 : reclampPercent
        ⟨.combined, ⟨1704067200000, 1706659200000, .hour⟩, 0⟩ 100 = 100 := by
      norm_num [reclampPercent, percentFromInstant, instantFromPercent,
        snapToGranularity, clampQ, clampI, DateGranularity.ms]
    have h4 : instantFromPercent 100 ⟨1704067200000, 1706659200000, .hour⟩ =
        1706659200000 := by
      norm_num [instantFromPercent, snapToGranularity, clampQ,
        DateGranularity.ms]
    simp only [setDateTime, handleExists, if_true, proposeMove, selectionOf,
      h1, h2, h3, h4]

/-- C5 witness: the above-axis clamp of `percentFromInstant` applied at the
concrete valid axis [0 ms, 5 ms] and the out-of-range instant 9 ms. -/
theorem claim_C5_witness :
    (0 : Int) < 5 ∧ (5 : Int) ≤ 9 ∧
    percentFromInstant 9 ⟨0, 5, .minute⟩ = 100 :=
  ⟨by decide, by decide,
    claim_C5_out_of_range_clamped.1 ⟨0, 5, .minute⟩ 9 (by decide) (by decide)⟩

/-- C6: `setDateTime` with a target handle that does not exist in the
current topology is a silent no-op — the state is unchanged and nothing is
emitted. -/
theorem claim_C6_silent_noop (cfg : MachineConfig) (st : MachineState)
    (date : Int) (target : DragHandle)
    (h : handleExists cfg.viewMode target = false) :
    setDateTime cfg st date target = (st, []) := by
  unfold setDateTime
  rw [h]
  simp

/-- C6 witness: targeting Point in Range topology leaves the state alone
and emits nothing. -/
theorem claim_C6_witness :
    handleExists ViewMode.range DragHandle.point = false ∧
    setDateTime ⟨.range, ⟨0, 86400000, .day⟩, 0⟩ ⟨0, 100, 50⟩ 7
        DragHandle.point = (⟨0, 100, 50⟩, []) :=
  ⟨rfl, claim_C6_silent_noop ⟨.range, ⟨0, 86400000, .day⟩, 0⟩ ⟨0, 100, 50⟩ 7
    DragHandle.point rfl⟩

/-- C7: topology isolation — in Point topology the out-of-topology
`initialRange` input never affects Point's resolved initial position, and
in Range topology `initialPoint` never affects Start's and End's. -/
theorem claim_C7_topology_isolation :
    (∀ (p : SliderInitProps) (r : Option (Int × Int)), p.viewMode = .point →
      (initState { p with initialRange := r }).pointPos =
        (initState p).pointPos) ∧
    (∀ (p : SliderInitProps) (i : Option Int), p.viewMode = .range →
      (initState { p with initialPoint := i }).startPos =
          (initState p).startPos ∧
        (initState { p with initialPoint := i }).endPos =
          (initState p).endPos) :=
  ⟨fun _ _ _ => rfl, fun _ _ _ => ⟨rfl, rfl⟩⟩

/-- C7 witness: two Point-topology configurations differing only in
`initialRange` resolve the Point handle to the same initial position. -/
theorem claim_C7_witness :
    (SliderInitProps.viewMode ⟨.point, 0, 86400000, .day, none, some 43200000⟩ =
      ViewMode.point) ∧
    (initState ⟨.point, 0, 86400000, .day, some (0, 86400000), some 43200000⟩).pointPos =
      (initState ⟨.point, 0, 86400000, .day, none, some 43200000⟩).pointPos :=
  ⟨rfl, claim_C7_topology_isolation.1 ⟨.point, 0, 86400000, .day, none, some 43200000⟩
    (some (0, 86400000)) rfl⟩

/-- C8: `commit` is idempotent with respect to the emitted value — two
commits with no intervening `proposeMove` produce two emissions carrying
the same SelectionResult — and every commit synchronously produces exactly
one outward emission while `proposeMove` steps emit nothing. -/
theorem claim_C8_commit_idempotent :
    (∀ (cfg : MachineConfig) (st : MachineState),
      runOps cfg st [SliderOp.commit, SliderOp.commit] =
        (st, [selectionOf cfg st, selectionOf cfg st])) ∧
    (∀ (cfg : MachineConfig) (st : MachineState) (ops : List SliderOp),
      (runOps cfg st ops).2.length = countCommits ops) := by
  constructor
  · intro cfg st
    rfl
  · intro cfg st ops
    induction ops generalizing st with
    | nil => rfl
    | cons op rest ih =>
        cases op with
        | propose h cand => simp [runOps, stepOp, countCommits, ih]
        | commit => simp [runOps, stepOp, countCommits, ih]

/-- C9: `RenderSliderHandle` mounts the Start and End handles exactly when
`viewMode` is range or combined, mounts the Point handle exactly when
`viewMode` is point or combined, and mounts no other handle. -/
theorem claim_C9_mounted_handles :
    ∀ vm : ViewMode,
      ((DragHandle.start ∈ mountedHandles vm) ↔
        (vm = .range ∨ vm = .combined)) ∧
      ((DragHandle.endH ∈ mountedHandles vm) ↔
        (vm = .range ∨ vm = .combined)) ∧
      ((DragHandle.point ∈ mountedHandles vm) ↔
        (vm = .point ∨ vm = .combined)) ∧
      (∀ h ∈ mountedHandles vm,
        h = DragHandle.start ∨ h = DragHandle.endH ∨ h = DragHandle.point) := by
  intro vm
  cases vm <;> refine ⟨by decide, by decide, by decide, by decide⟩

/-- C9 witness: the Start handle is mounted in Range topology and the
Point handle is mounted in Point topology. -/
theorem claim_C9_witness :
    DragHandle.start ∈ mountedHandles ViewMode.range ∧
    DragHandle.point ∈ mountedHandles ViewMode.point :=
  ⟨((claim_C9_mounted_handles ViewMode.range).1).mpr (Or.inl rfl),
    ((claim_C9_mounted_handles ViewMode.point).2.2.1).mpr (Or.inl rfl)⟩

/-- C10: each TimeDisplay arrow click passes to `setDateTime` the date at
the current point position shifted by exactly plus one (forward) or minus
one (backward) unit of the selection granularity, always with the `point`
target; the view mode is not consulted. -/
theorem claim_C10_time_display_step :
    ∀ (position : ℚ) (startDate endDate : Int) (g : DateGranularity),
      handleDateUpdate .forward position startDate endDate g =
        (getDateFromPercent position startDate endDate + g.ms,
          DragHandle.point) ∧
      handleDateUpdate .backward position startDate endDate g =
        (getDateFromPercent position startDate endDate - g.ms,
          DragHandle.point) := by
  intro position startDate endDate g
  constructor
  · simp [handleDateUpdate, addTime]
  · simp [handleDateUpdate, addTime]
    ring

end DateSlider

